import Mathlib

/-!
Shallow embedding of the acord gateway client core:
src/acord/client/handler.py, src/acord/client/shard.py,
src/acord/voice/transports/writer.py and src/acord/errors.py.

Python dictionaries are modelled as association lists, Python
exceptions as explicit error values carrying the state mutated so far,
and the event-subscriber dispatch as an append-only trace of fired
event names.
-/

/-- Python exception types raised by the embedded gateway code.
Distinct constructors model distinct Python exception classes:
errors.py declares GatewayConnectionRefused and GatewayConnectionClosed
as separate classes, and DecodeError is the decoder failure of the
frame codec. valueError and keyError are the builtin Python exceptions
raised by list.remove on a missing element and dict.pop on a missing
key. -/
inductive HandlerErr where
  | gatewayConnectionRefused
  | gatewayConnectionClosed
  | decodeError
  | valueError
  | keyError
deriving DecidableEq

/-- A key of a Python dict that may mix int and str keys: handler.py
stores guilds under int keys (int conversion of the id string) but
pops the guild dict with the raw str key. -/
inductive Key where
  | ik (n : Nat)
  | sk (s : String)
deriving DecidableEq

/-- Python dict.update with a single key: overwrite in place when the
key is present, append otherwise (insertion order preserved). -/
def dictUpdate {α : Type} (d : List (Key × α)) (k : Key) (v : α) : List (Key × α) :=
  if (d.find? (fun p => p.1 == k)).isSome then
    d.map (fun p => if p.1 == k then (k, v) else p)
  else
    d ++ [(k, v)]

/-- Python dict lookup returning the stored value when present. -/
def dictGet {α : Type} (d : List (Key × α)) (k : Key) : Option α :=
  (d.find? (fun p => p.1 == k)).map Prod.snd

/-- Python dict.pop with one argument: return the removed value and
the remaining dict, or nothing when the key is absent (the caller
models the KeyError). -/
def dictPop {α : Type} (d : List (Key × α)) (k : Key) : Option (α × List (Key × α)) :=
  match dictGet d k with
  | none => none
  | some v => some (v, d.filter (fun p => !(p.1 == k)))

/-- Decimal digit accumulator for pyInt. -/
def pyDigits (cs : List Char) (acc : Nat) : Nat :=
  match cs with
  | [] => acc
  | c :: rest => pyDigits rest (acc * 10 + (c.toNat - 48))

/-- Python int() applied to the decimal string ids carried by payloads. -/
def pyInt (s : String) : Nat := pyDigits s.data 0

/-- Guild entity as hydrated by the opaque model layer from the raw
payload; the raw id string is what the dispatcher consults. -/
structure GuildEnt where
  raw_id : String
  unavailable : Option Bool := none
deriving DecidableEq

/-- Message entity as hydrated by the opaque model layer. -/
structure MessageEnt where
  id : Nat
  channel_id : Nat
deriving DecidableEq

/-- Channel entity as hydrated by the opaque model layer. -/
structure ChannelEnt where
  id : Nat
  last_message_id : Option Nat := none
deriving DecidableEq

/-- One decoded event envelope, holding exactly the payload fields the
handler reads: op, t, s, and the DATA fields id, unavailable,
session_id, v, the current user id, the id list of the READY guilds
and the channel id of a message. Ids arrive as decimal strings on the
wire. -/
structure Frame where
  t : Option String := none
  op : Nat := 0
  s : Option Nat := none
  d_id : String := ""
  d_unavailable : Option Bool := none
  d_session_id : String := ""
  d_v : Nat := 0
  d_user_id : Nat := 0
  d_guild_ids : List String := []
  d_channel_id : String := ""
deriving DecidableEq

/-- The mutable state handle_websocket reads and writes: the session
fields set from READY, the INTERNAL_STORAGE tables, the module-global
gateway.SEQUENCE, and the trace of dispatched event names. -/
structure HandlerState where
  gateway_sequence : Option Nat := none
  session_id : Option String := none
  gateway_version : Option Nat := none
  user : Option Nat := none
  users : List (Key × Nat) := []
  messages : List (Key × MessageEnt) := []
  guilds : List (Key × GuildEnt) := []
  channels : List (Key × ChannelEnt) := []
  dispatched : List String := []
deriving DecidableEq

/-- Modelled from the spec: acord.core.signals is not under src; the
spec fixes the op numbering (9 InvalidSession). -/
def gateway.INVALIDSESSION : Nat := 9

/-- Modelled from the spec: acord.core.signals is not under src; the
spec fixes the op numbering (11 HeartbeatAck). -/
def gateway.HEARTBEATACK : Nat := 11

/-- Modelled from the spec: acord.core.signals is not under src; the
spec fixes the op numbering (10 Hello). -/
def gateway.HELLO : Nat := 10

/-- Modelled from the spec: acord.core.signals is not under src; the
spec fixes the op numbering (2 Identify). -/
def gateway.IDENTIFY : Nat := 2

/-- Modelled from the spec: acord.core.signals is not under src; the
spec fixes the op numbering (6 Resume). -/
def gateway.RESUME : Nat := 6

/-- self.dispatch(name, ...): append the fired event name to the trace. -/
def dispatchEv (self : HandlerState) (name : String) : HandlerState :=
  { self with dispatched := self.dispatched ++ [name] }

/-- Guild(conn=self.http, **DATA): opaque hydration keeping the raw fields. -/
def GuildEnt.hydrate (f : Frame) : GuildEnt :=
  { raw_id := f.d_id, unavailable := f.d_unavailable }

/-- Message(conn=self.http, **DATA): opaque hydration; pydantic converts
the decimal-string ids to ints. -/
def MessageEnt.hydrate (f : Frame) : MessageEnt :=
  { id := pyInt f.d_id, channel_id := pyInt f.d_channel_id }

/-- Modelled from the spec: the util _d_to_channel and the channel
models are not under src; spec section 4.5 treats hydration as an
opaque constructor of a typed channel entity. -/
def ChannelEnt.hydrate (f : Frame) : ChannelEnt :=
  { id := pyInt f.d_id }

/-- One inbound websocket message, modelled by its decode outcome.
Modelled from the spec: acord.core.decoders (JSON, ETF,
decompressResponse) is not under src; spec section 4.1 says decoding
yields the event envelope or fails with DecodeError, and the loop
skips a falsy decompressed payload. -/
inductive RawMessage where
  | empty
  | malformed
  | frame (f : Frame)
deriving DecidableEq

/-- The body of the async-for loop of handle_websocket for one decoded
envelope, translated statement by statement from handler.py lines
28-109. A raised Python exception is an error value carrying the state
mutated before the raise. -/
def handle_frame (st : HandlerState) (f : Frame) : Except (HandlerErr × HandlerState) HandlerState := do
  -- gateway.SEQUENCE = SEQUENCE
  let self := { st with gateway_sequence := f.s }
  -- UNAVAILABLE = list()  (re-created afresh on every frame)
  let UNAVAILABLE : List String := []
  -- if OPERATION == gateway.INVALIDSESSION: raise GatewayConnectionRefused(...)
  if f.op = gateway.INVALIDSESSION then
    throw (HandlerErr.gatewayConnectionRefused, self)
  -- if OPERATION == gateway.HEARTBEATACK: self.dispatch("heartbeat")
  let self := if f.op = gateway.HEARTBEATACK then dispatchEv self "heartbeat" else self
  -- if EVENT == "READY": ... continue
  if f.t = some "READY" then
    let self := dispatchEv self "ready"
    let self := { self with session_id := some f.d_session_id,
                            gateway_version := some f.d_v,
                            user := some f.d_user_id }
    -- UNAVAILABLE = [i["id"] for i in DATA["guilds"]] -- dead: continue follows
    let _UNAVAILABLE_ready := f.d_guild_ids
    let self := { self with users := dictUpdate self.users (Key.ik f.d_user_id) f.d_user_id }
    return self
  -- if EVENT == "MESSAGE_CREATE"
  let self ←
    if f.t = some "MESSAGE_CREATE" then do
      let message := MessageEnt.hydrate f
      -- message.channel backlink: set last_message_id on the cached channel
      -- when present (spec section 4.5; the model layer is not under src)
      let self :=
        match dictGet self.channels (Key.ik message.channel_id) with
        | some ch =>
          let ch2 := { ch with last_message_id := some message.id }
          { self with channels := dictUpdate self.channels (Key.ik message.channel_id) ch2 }
        | none => self
      let mkey := Key.sk (toString message.channel_id ++ ":" ++ toString message.id)
      let self := { self with messages := dictUpdate self.messages mkey message }
      pure (dispatchEv self "message")
    else pure self
  -- if EVENT == "GUILD_CREATE"
  let (self, UNAVAILABLE) ←
    if f.t = some "GUILD_CREATE" then
      let guild := GuildEnt.hydrate f
      if f.d_id ∈ UNAVAILABLE then
        let UNAVAILABLE := UNAVAILABLE.erase f.d_id
        let self := dispatchEv self "guild_recv"
        pure ({ self with guilds := dictUpdate self.guilds (Key.ik (pyInt f.d_id)) guild },
              UNAVAILABLE)
      else
        let self := dispatchEv self "guild_create"
        pure ({ self with guilds := dictUpdate self.guilds (Key.ik (pyInt f.d_id)) guild },
              UNAVAILABLE)
    else pure (self, UNAVAILABLE)
  -- if EVENT == "GUILD_DELETE"
  let (self, _UNAVAILABLE_final) ←
    if f.t = some "GUILD_DELETE" then
      -- if DATA.get("unavailable", None) is not None
      if f.d_unavailable ≠ none then
        let guild := GuildEnt.hydrate f
        -- UNAVAILABLE.remove(DATA["id"]) raises ValueError when absent
        if f.d_id ∈ UNAVAILABLE then
          let UNAVAILABLE := UNAVAILABLE.erase f.d_id
          let self := dispatchEv self "guild_outage"
          pure ({ self with guilds := dictUpdate self.guilds (Key.ik (pyInt f.d_id)) guild },
                UNAVAILABLE)
        else
          throw (HandlerErr.valueError, self)
      else
        -- guild = self.INTERNAL_STORAGE["guilds"].pop(DATA["id"]) -- str key
        match dictPop self.guilds (Key.sk f.d_id) with
        | none => throw (HandlerErr.keyError, self)
        | some (_guild, rest) =>
          let self := { self with guilds := rest }
          pure (dispatchEv self "guild_remove", UNAVAILABLE)
    else pure (self, UNAVAILABLE)
  -- if EVENT == "CHANNEL_CREATE"
  let self :=
    if f.t = some "CHANNEL_CREATE" then
      let channel := ChannelEnt.hydrate f
      let self := { self with channels := dictUpdate self.channels (Key.ik channel.id) channel }
      dispatchEv self "channel_create"
    else self
  -- if EVENT == "CHANNEL_UPDATE"
  let self :=
    if f.t = some "CHANNEL_UPDATE" then
      let channel := ChannelEnt.hydrate f
      let self := { self with channels := dictUpdate self.channels (Key.ik channel.id) channel }
      dispatchEv self "channel_update"
    else self
  -- if EVENT == "CHANNEL_DELETE"
  if f.t = some "CHANNEL_DELETE" then
    match dictPop self.channels (Key.ik (pyInt f.d_id)) with
    | none => throw (HandlerErr.keyError, self)
    | some (_channel, rest) =>
      return dispatchEv { self with channels := rest } "channel_delete"
  else
    return self

/-- One iteration of the async-for loop of handle_websocket: dispatch
"socket_recieve" with the raw message, then decompress and decode
(skipping a falsy payload, propagating a decode failure), then run the
per-frame body. -/
def handle_message (self : HandlerState) (msg : RawMessage) :
    Except (HandlerErr × HandlerState) HandlerState :=
  let self := dispatchEv self "socket_recieve"
  match msg with
  | RawMessage.empty => Except.ok self
  | RawMessage.malformed => Except.error (HandlerErr.decodeError, self)
  | RawMessage.frame f => handle_frame self f

/-- handle_websocket (handler.py): fold the loop body over the inbound
messages; a raised exception propagates, ending the loop with the
remaining messages unprocessed. -/
def handle_websocket (self : HandlerState) (ws : List RawMessage) :
    Except (HandlerErr × HandlerState) HandlerState :=
  match ws with
  | [] => Except.ok self
  | msg :: rest =>
    match handle_message self msg with
    | Except.ok self2 => handle_websocket self2 rest
    | Except.error e => Except.error e

/-- Run handle_websocket from the initial state and expose the raised
exception (when any) together with the final observable state. -/
def runH (msgs : List RawMessage) : Option HandlerErr × HandlerState :=
  match handle_websocket {} msgs with
  | Except.ok st => (none, st)
  | Except.error (e, st) => (some e, st)

/-- Python exception types raised by the shard and voice code. The
voiceError constructor records the closed attribute attached to the
raised VoiceError (absent attributes read as False through getattr). -/
inductive PyExc where
  | attributeError
  | voiceError (closed_attr : Bool)
  | eofError
  | stopAsyncIteration
  | osError
  | valueError
deriving DecidableEq

/-- An aiohttp client websocket as the shard observes it: whether close
was called and the close code it was closed with. close on an already
closed socket is a no-op. -/
structure WSocket where
  closed : Bool := false
  close_code : Option Nat := none
deriving DecidableEq

/-- ws.close(code=c): mark closed with the code; no-op when already closed. -/
def WSocket.close (w : WSocket) (code : Nat) : WSocket :=
  if w.closed then w else { closed := true, close_code := some code }

/-- Modelled from the spec: GatewayKeepAlive (acord.core.heartbeat) is
not under src; spec section 4.3 HeartbeatMonitor. Only the fields the
shard touches are modelled: the ended stop flag set by disconnect and
the generation of the socket the monitor writes to, rewired by
resume(restart=True). -/
structure GatewayKeepAlive where
  ended : Bool := false
  ws_gen : Nat := 0
deriving DecidableEq

/-- The resume payload sent on the wire: op RESUME with d = token,
session_id, seq (shard.py lines 280-287). -/
structure ResumePayload where
  token : String
  session_id : Option String
  seq : Option Nat
deriving DecidableEq

/-- One Shard (shard.py): the session fields of __init__ plus the
observable effects of its methods: ws_gen counts socket openings,
rl_increments is the trace of rate-limiter bucket increments
(GatewayRatelimiter internals are not under src and are modelled from
spec section 4.2 as a per-key counter), sent_resumes the resume
payloads sent. -/
structure Shard where
  url : String
  shard_id : Nat
  num_shards : Nat
  token : String
  ws : Option WSocket := none
  ws_gen : Nat := 0
  snd_kwds_saved : Bool := false
  keep_alive : Option GatewayKeepAlive := none
  sequence : Option Nat := none
  session_id : Option String := none
  gateway_version : Option Nat := none
  resuming : Bool := false
  task_alive : Bool := false
  task_cancelled : Bool := false
  rl_increments : List Nat := []
  sent_resumes : List ResumePayload := []
deriving DecidableEq

/-- Shard.__init__: ws is None, sequence and session_id are None,
resuming is False, no heartbeat monitor yet. -/
def Shard.init (url : String) (shard_id num_shards : Nat) (token : String) : Shard :=
  { url := url, shard_id := shard_id, num_shards := num_shards, token := token }

/-- Shard.contains_guild (shard.py lines 143-144). -/
def Shard.contains_guild (self : Shard) (guild_id : Nat) : Bool :=
  ((guild_id >>> 22) % self.num_shards) == self.shard_id

/-- Shard.ratelimit_key property (shard.py lines 342-344). -/
def Shard.ratelimit_key (self : Shard) : Nat :=
  self.shard_id % self.num_shards

/-- Shard.connect (shard.py lines 153-170): opens a fresh socket and
records the connection kwargs for later reuse. -/
def Shard.connect (self : Shard) : Shard :=
  { self with ws := some {}, ws_gen := self.ws_gen + 1, snd_kwds_saved := true }

/-- Shard.disconnect (shard.py lines 242-254): sets the heartbeat
monitor ended flag, closes the socket with code 4000, and cancels the
listen task when one exists. Accessing self.keep_alive before
receive_hello created it, or calling close on a ws that is still None,
raises AttributeError. -/
def Shard.disconnect (self : Shard) : Except PyExc Shard :=
  match self.keep_alive with
  | none => Except.error PyExc.attributeError
  | some ka =>
    let self := { self with keep_alive := some { ka with ended := true } }
    match self.ws with
    | none => Except.error PyExc.attributeError
    | some w =>
      let self := { self with ws := some (w.close 4000) }
      -- if getattr(self, "task", None): self.task.cancel(...)
      let self := if self.task_alive then { self with task_cancelled := true } else self
      Except.ok self

/-- Shard.resume (shard.py lines 256-289): when restart is set, close
the socket with code 4000, reconnect with the saved kwargs and rewire
the heartbeat monitor to the new socket; then go through the
rate-limited path, set the resuming flag and send the resume payload
built from token, session_id and sequence. -/
def Shard.resume (self : Shard) (restart : Bool) : Except PyExc Shard := do
  let self ←
    if restart then
      match self.ws with
      | none => throw PyExc.attributeError
      | some w =>
        let self := { self with ws := some (w.close 4000) }
        -- self.connect(**self._snd_kwds): _snd_kwds exists only after connect
        if self.snd_kwds_saved then
          let self := self.connect
          match self.keep_alive with
          | none => throw PyExc.attributeError
          | some ka => pure { self with keep_alive := some { ka with ws_gen := self.ws_gen } }
        else
          throw PyExc.attributeError
    else
      pure self
  let self := { self with rl_increments := self.rl_increments ++ [self.ratelimit_key] }
  let self := { self with resuming := true }
  let payload : ResumePayload :=
    { token := self.token, session_id := self.session_id, seq := self.sequence }
  pure { self with sent_resumes := self.sent_resumes ++ [payload] }

/-- A Python binary file object as BasePlayer uses it: read(n) returns
the next chunk (empty at end of file), tell() the position, seek(n)
repositions; every operation on a closed file raises ValueError. -/
structure PyFile where
  content : List Nat
  pos : Nat := 0
  closed : Bool := false
deriving DecidableEq

/-- fp.read(n). -/
def PyFile.read (f : PyFile) (n : Nat) : Except PyExc (List Nat × PyFile) :=
  if f.closed then Except.error PyExc.valueError
  else
    let chunk := (f.content.drop f.pos).take n
    Except.ok (chunk, { f with pos := f.pos + chunk.length })

/-- fp.tell(). -/
def PyFile.tell (f : PyFile) : Except PyExc Nat :=
  if f.closed then Except.error PyExc.valueError else Except.ok f.pos

/-- fp.seek(n). -/
def PyFile.seek (f : PyFile) (n : Nat) : Except PyExc PyFile :=
  if f.closed then Except.error PyExc.valueError
  else Except.ok { f with pos := n }

/-- fp.close(): idempotent. -/
def PyFile.fclose (f : PyFile) : PyFile := { f with closed := true }

/-- Modelled from the spec: the opus Encoder (acord.voice.opus) is not
under src and is an optional collaborator of the voice transport;
modelled opaquely by its frame size, sampling rate and a total encode
function. -/
structure Encoder where
  frame_size : Nat
  sampling_rate : Nat
  encode : List Nat → List Nat

/-- BasePlayer (writer.py): the file handle, read position, packet
index, closed flag, encoder, last errors, and the trace of packets the
voice connection was asked to send (conn.send_audio_packet). -/
structure BasePlayer where
  fp : PyFile
  pos : Nat
  index : Nat := 0
  closed : Bool := false
  encoder : Encoder
  last_pack_err : Option PyExc := none
  last_send_err : Option PyExc := none
  conn_sent : List (List Nat) := []

/-- BasePlayer.__init__ on an open buffered source: keep the handle
and record its current position. -/
def BasePlayer.init (fp : PyFile) (encoder : Encoder) : BasePlayer :=
  { fp := fp, pos := fp.pos, encoder := encoder }

/-- BasePlayer.close (writer.py lines 83-88): raise VoiceError when
already closed, else close the file and set the closed flag. -/
def BasePlayer.close (p : BasePlayer) : Except PyExc Unit × BasePlayer :=
  if p.closed then (Except.error (PyExc.voiceError false), p)
  else
    let p := { p with fp := p.fp.fclose }
    (Except.ok (), { p with closed := true })

/-- BasePlayer.__aiter__ (writer.py lines 59-63): raise VoiceError on a
closed transport, else return self unchanged. -/
def BasePlayer.aiter (p : BasePlayer) : Except PyExc Unit :=
  if p.closed then Except.error (PyExc.voiceError false) else Except.ok ()

/-- BasePlayer.get_next_packet (writer.py lines 73-81): bump the index,
read one frame; on an empty read close the transport and raise
EOFError, otherwise record the new file position and return the data. -/
def BasePlayer.get_next_packet (p : BasePlayer) : Except PyExc (List Nat) × BasePlayer :=
  let p := { p with index := p.index + 1 }
  match p.fp.read p.encoder.frame_size with
  | Except.error e => (Except.error e, p)
  | Except.ok (data, fp2) =>
    let p := { p with fp := fp2 }
    if data = [] then
      match p.close with
      | (Except.error e, p2) => (Except.error e, p2)
      | (Except.ok _, p2) => (Except.error PyExc.eofError, p2)
    else
      match p.fp.tell with
      | Except.error e => (Except.error e, p)
      | Except.ok pos2 => (Except.ok data, { p with pos := pos2 })

/-- BasePlayer.__anext__ (writer.py lines 65-71): get_next_packet,
converting EOFError into StopAsyncIteration. -/
def BasePlayer.anext (p : BasePlayer) : Except PyExc (List Nat) × BasePlayer :=
  match p.get_next_packet with
  | (Except.error PyExc.eofError, p2) => (Except.error PyExc.stopAsyncIteration, p2)
  | r => r

/-- BasePlayer.cleanup (writer.py lines 90-94): rewind the file and
reset the error markers and index; the closed flag is not touched. -/
def BasePlayer.cleanup (p : BasePlayer) : Except PyExc Unit × BasePlayer :=
  match p.fp.seek 0 with
  | Except.error e => (Except.error e, p)
  | Except.ok fp2 =>
    (Except.ok (), { p with fp := fp2, last_pack_err := none,
                            last_send_err := none, index := 0 })

/-- BasePlayer.send (writer.py lines 96-109): raise VoiceError on a
closed transport before anything is written; otherwise encode and hand
the bytes to conn.send_audio_packet. The sock_ok argument says whether
that call succeeds; on OSError the transport is closed, the error
recorded, and a VoiceError carrying closed=True is raised. -/
def BasePlayer.send (p : BasePlayer) (data : List Nat) (sock_ok : Bool) :
    Except PyExc Unit × BasePlayer :=
  if p.closed then (Except.error (PyExc.voiceError false), p)
  else
    let encoded := p.encoder.encode data
    if sock_ok then (Except.ok (), { p with conn_sent := p.conn_sent ++ [encoded] })
    else
      match p.close with
      | (Except.error e, p2) => (Except.error e, p2)
      | (Except.ok _, p2) =>
        let p2 := { p2 with last_send_err := some PyExc.osError }
        (Except.error (PyExc.voiceError true), p2)

/-- A READY envelope listing guild "123" as initially unavailable. -/
def readyFrame : Frame :=
  { t := some "READY", op := 0, s := some 1, d_session_id := "abc", d_v := 9,
    d_user_id := 1, d_guild_ids := ["123"] }

/-- A GUILD_CREATE envelope for guild "123". -/
def guildCreateFrame : Frame := { t := some "GUILD_CREATE", op := 0, d_id := "123" }

/-- A GUILD_DELETE envelope carrying the unavailable marker. -/
def guildDeleteOutageFrame : Frame :=
  { t := some "GUILD_DELETE", op := 0, d_id := "123", d_unavailable := some true }

/-- A GUILD_DELETE envelope without the unavailable marker. -/
def guildDeletePermFrame : Frame := { t := some "GUILD_DELETE", op := 0, d_id := "123" }

/-- An envelope whose op is InvalidSession. -/
def invalidSessionFrame : Frame := { op := 9 }

/-- A concrete shard for witnesses. -/
def shardW : Shard := Shard.init "wss://gateway" 1 3 "tok"

/-- A concrete shard that has completed connect and receive_hello,
with a live session to resume. -/
def shardR : Shard :=
  { url := "wss://gateway", shard_id := 0, num_shards := 1, token := "tok",
    ws := some {}, ws_gen := 1, snd_kwds_saved := true, keep_alive := some {},
    session_id := some "abc", sequence := some 42 }

/-- A concrete encoder for witnesses. -/
def encW : Encoder := { frame_size := 4, sampling_rate := 48000, encode := fun x => x }

/-- A concrete player that has been closed. -/
def playerClosed : BasePlayer :=
  { fp := { content := [1, 2, 3], pos := 0, closed := true }, pos := 0,
    closed := true, encoder := encW }

/-- A concrete open player whose file is at end of input. -/
def playerAtEof : BasePlayer :=
  { fp := { content := [], pos := 0 }, pos := 0, encoder := encW }

/-- C1: the sharding partition function is bit-exact: for every
guild_id and num_shards > 0, Shard.contains_guild returns true exactly
when ((guild_id >>> 22) % num_shards) equals shard_id, and exactly one
shard_id below num_shards owns each guild_id. -/
theorem Shard.contains_guild_bit_exact (sh : Shard) (guild_id : Nat)
    (h : 0 < sh.num_shards) :
    (sh.contains_guild guild_id = true ↔
      (guild_id >>> 22) % sh.num_shards = sh.shard_id) ∧
    (∃! sid : Nat, sid < sh.num_shards ∧
      (Shard.init sh.url sid sh.num_shards sh.token).contains_guild guild_id = true) := by
  constructor
  · simp [Shard.contains_guild]
  · refine ⟨(guild_id >>> 22) % sh.num_shards, ⟨Nat.mod_lt _ h, ?_⟩, ?_⟩
    · simp [Shard.contains_guild, Shard.init]
    · rintro y ⟨hy, hc⟩
      have := hc
      simp [Shard.contains_guild, Shard.init] at this
      exact this.symm

/-- C1 witness: shard 1 of 3 owns guild 29360128 (whose high bits are
7, and 7 mod 3 = 1). -/
theorem Shard.contains_guild_bit_exact_witness :
    0 < shardW.num_shards ∧
    ((shardW.contains_guild 29360128 = true ↔
      (29360128 >>> 22) % shardW.num_shards = shardW.shard_id) ∧
     (∃! sid : Nat, sid < shardW.num_shards ∧
       (Shard.init shardW.url sid shardW.num_shards shardW.token).contains_guild 29360128 = true)) :=
  ⟨by decide, Shard.contains_guild_bit_exact shardW 29360128 (by decide)⟩

/-- C2: evaluation at the failing input: handler.py re-creates the
UNAVAILABLE list empty on every frame, so after a READY listing guild
"123" a GUILD_CREATE for "123" fires "guild_create", never
"guild_recv" (the guild is still upserted into the cache). -/
theorem guild_create_after_ready_fires_guild_create :
    (runH [RawMessage.frame readyFrame, RawMessage.frame guildCreateFrame]).1 = none ∧
    (runH [RawMessage.frame readyFrame, RawMessage.frame guildCreateFrame]).2.dispatched =
      ["socket_recieve", "ready", "socket_recieve", "guild_create"] ∧
    dictGet (runH [RawMessage.frame readyFrame, RawMessage.frame guildCreateFrame]).2.guilds
      (Key.ik 123) = some { raw_id := "123" } :=
  ⟨rfl, rfl, by decide⟩

/-- C3: evaluation at the failing input: a GUILD_DELETE carrying the
unavailable marker reaches UNAVAILABLE.remove on the per-frame empty
list, which raises an uncaught ValueError: no "guild_outage" is
dispatched, the guild is not upserted, and the receive loop
terminates. -/
theorem guild_delete_outage_raises_value_error :
    (runH [RawMessage.frame readyFrame, RawMessage.frame guildDeleteOutageFrame]).1 =
      some HandlerErr.valueError ∧
    (runH [RawMessage.frame readyFrame, RawMessage.frame guildDeleteOutageFrame]).2.dispatched =
      ["socket_recieve", "ready", "socket_recieve"] ∧
    dictGet (runH [RawMessage.frame readyFrame, RawMessage.frame guildDeleteOutageFrame]).2.guilds
      (Key.ik 123) = none :=
  ⟨rfl, rfl, rfl⟩

/-- C4: evaluation at the failing input: GUILD_CREATE caches the guild
under the int key 123, but the permanent-removal GUILD_DELETE pops
with the raw str key "123"; the pop raises an uncaught KeyError, the
guild stays cached, no "guild_remove" is dispatched, and the receive
loop terminates. -/
theorem guild_delete_perm_raises_key_error :
    (runH [RawMessage.frame guildCreateFrame, RawMessage.frame guildDeletePermFrame]).1 =
      some HandlerErr.keyError ∧
    (runH [RawMessage.frame guildCreateFrame, RawMessage.frame guildDeletePermFrame]).2.dispatched =
      ["socket_recieve", "guild_create", "socket_recieve"] ∧
    dictGet (runH [RawMessage.frame guildCreateFrame, RawMessage.frame guildDeletePermFrame]).2.guilds
      (Key.ik 123) = some { raw_id := "123" } :=
  ⟨rfl, rfl, by decide⟩

/-- C5: evaluation at the failing input: a frame whose decode fails
raises DecodeError out of the receive loop; the loop terminates and a
well-formed READY queued behind it is never processed (session_id
stays None and "ready" never fires). -/
theorem malformed_frame_terminates_loop :
    (runH [RawMessage.malformed, RawMessage.frame readyFrame]).1 =
      some HandlerErr.decodeError ∧
    (runH [RawMessage.malformed, RawMessage.frame readyFrame]).2.dispatched =
      ["socket_recieve"] ∧
    (runH [RawMessage.malformed, RawMessage.frame readyFrame]).2.session_id = none :=
  ⟨rfl, rfl, rfl⟩

/-- Raising GatewayConnectionRefused is the first action of the frame
body once the InvalidSession op is seen. -/
theorem handle_frame_invalid (st : HandlerState) (f : Frame)
    (h : f.op = gateway.INVALIDSESSION) :
    handle_frame st f =
      Except.error (HandlerErr.gatewayConnectionRefused,
        { st with gateway_sequence := f.s }) := by
  unfold handle_frame
  rw [h]
  simp [bind, Except.bind, throw, throwThe, MonadExceptOf.throw]

/-- C6: a received frame whose op is InvalidSession makes the session
raise GatewayConnectionRefused: handle_websocket stops with that
error (carrying the state mutated so far), and the error type is
distinct from DecodeError and from GatewayConnectionClosed. -/
theorem invalid_session_refused (st : HandlerState) (f : Frame)
    (h : f.op = gateway.INVALIDSESSION) :
    handle_websocket st [RawMessage.frame f] =
      Except.error (HandlerErr.gatewayConnectionRefused,
        { dispatchEv st "socket_recieve" with gateway_sequence := f.s }) ∧
    HandlerErr.gatewayConnectionRefused ≠ HandlerErr.decodeError ∧
    HandlerErr.gatewayConnectionRefused ≠ HandlerErr.gatewayConnectionClosed := by
  refine ⟨?_, by simp, by simp⟩
  simp [handle_websocket, handle_message, handle_frame_invalid _ _ h]

/-- C6 witness: the concrete InvalidSession envelope is refused. -/
theorem invalid_session_refused_witness :
    invalidSessionFrame.op = gateway.INVALIDSESSION ∧
    (handle_websocket {} [RawMessage.frame invalidSessionFrame] =
      Except.error (HandlerErr.gatewayConnectionRefused,
        { dispatchEv {} "socket_recieve" with gateway_sequence := invalidSessionFrame.s }) ∧
     HandlerErr.gatewayConnectionRefused ≠ HandlerErr.decodeError ∧
     HandlerErr.gatewayConnectionRefused ≠ HandlerErr.gatewayConnectionClosed) :=
  ⟨rfl, invalid_session_refused {} invalidSessionFrame rfl⟩

/-- C7: resume(restart=True) closes and reopens the socket while
leaving session_id and sequence unchanged, increments the rate-limit
bucket for this shard once, sets the resuming flag and sends the
resume payload built from token, session_id and sequence; and a fresh
connect() after __init__ leaves session_id and sequence both None. -/
theorem resume_restart_preserves_session (sh : Shard) (w : WSocket)
    (ka : GatewayKeepAlive)
    (hw : sh.ws = some w) (hk : sh.keep_alive = some ka)
    (hs : sh.snd_kwds_saved = true)
    (url tok : String) (sid n : Nat) :
    (∃ sh2, sh.resume true = Except.ok sh2 ∧
      sh2.session_id = sh.session_id ∧
      sh2.sequence = sh.sequence ∧
      sh2.resuming = true ∧
      sh2.ws = some { closed := false, close_code := none } ∧
      sh2.ws_gen = sh.ws_gen + 1 ∧
      sh2.rl_increments = sh.rl_increments ++ [sh.ratelimit_key] ∧
      sh2.sent_resumes = sh.sent_resumes ++
        [{ token := sh.token, session_id := sh.session_id, seq := sh.sequence }]) ∧
    (Shard.init url sid n tok).connect.session_id = none ∧
    (Shard.init url sid n tok).connect.sequence = none := by
  refine ⟨?_, rfl, rfl⟩
  simp [Shard.resume, Shard.connect, Shard.ratelimit_key, hw, hk, hs,
    bind, Except.bind, pure, Except.pure]

/-- C7 witness: a connected shard with session_id "abc" and sequence
42 resumes with restart and keeps both. -/
theorem resume_restart_preserves_session_witness :
    shardR.ws = some {} ∧ shardR.keep_alive = some {} ∧
    shardR.snd_kwds_saved = true ∧
    ((∃ sh2, shardR.resume true = Except.ok sh2 ∧
      sh2.session_id = shardR.session_id ∧
      sh2.sequence = shardR.sequence ∧
      sh2.resuming = true ∧
      sh2.ws = some { closed := false, close_code := none } ∧
      sh2.ws_gen = shardR.ws_gen + 1 ∧
      sh2.rl_increments = shardR.rl_increments ++ [shardR.ratelimit_key] ∧
      sh2.sent_resumes = shardR.sent_resumes ++
        [{ token := shardR.token, session_id := shardR.session_id, seq := shardR.sequence }]) ∧
    (Shard.init "wss://gateway" 0 1 "tok").connect.session_id = none ∧
    (Shard.init "wss://gateway" 0 1 "tok").connect.sequence = none) :=
  ⟨rfl, rfl, rfl,
    resume_restart_preserves_session shardR {} {} rfl rfl rfl "wss://gateway" "tok" 0 1⟩

/-- C8: evaluation at the failing input: disconnect on a freshly
constructed shard (before connect and receive_hello) raises
AttributeError because self does not yet have the heartbeat monitor
attribute, and it also raises after connect but before receive_hello;
so disconnect is not safe to call from every session state. -/
theorem disconnect_before_handshake_attribute_error :
    (Shard.init "wss://gateway" 0 1 "tok").disconnect =
      Except.error PyExc.attributeError ∧
    (Shard.init "wss://gateway" 0 1 "tok").connect.disconnect =
      Except.error PyExc.attributeError :=
  ⟨rfl, rfl⟩

/-- C9: once a BasePlayer is closed its closed flag stays true: send,
__aiter__ and close all raise VoiceError leaving the player unchanged
(so no bytes are handed to the voice connection), and cleanup never
resets the closed flag. -/
theorem closed_player_rejects_operations (p : BasePlayer) (data : List Nat)
    (sock_ok : Bool) (h : p.closed = true) :
    p.send data sock_ok = (Except.error (PyExc.voiceError false), p) ∧
    p.aiter = Except.error (PyExc.voiceError false) ∧
    p.close = (Except.error (PyExc.voiceError false), p) ∧
    (p.cleanup).2.closed = true ∧
    (p.send data sock_ok).2.conn_sent = p.conn_sent := by
  refine ⟨?_, ?_, ?_, ?_, ?_⟩
  · simp [BasePlayer.send, h]
  · simp [BasePlayer.aiter, h]
  · simp [BasePlayer.close, h]
  · unfold BasePlayer.cleanup PyFile.seek
    by_cases hf : p.fp.closed <;> simp [hf, h]
  · simp [BasePlayer.send, h]

/-- C9 witness: the concrete closed player rejects every operation. -/
theorem closed_player_rejects_operations_witness :
    playerClosed.closed = true ∧
    (playerClosed.send [9] true = (Except.error (PyExc.voiceError false), playerClosed) ∧
     playerClosed.aiter = Except.error (PyExc.voiceError false) ∧
     playerClosed.close = (Except.error (PyExc.voiceError false), playerClosed) ∧
     (playerClosed.cleanup).2.closed = true ∧
     (playerClosed.send [9] true).2.conn_sent = playerClosed.conn_sent) :=
  ⟨rfl, closed_player_rejects_operations playerClosed [9] true rfl⟩

/-- C10: when the file read returns no bytes, get_next_packet closes
the transport and raises EOFError, and __anext__ converts that
EOFError into StopAsyncIteration, so asynchronous iteration ends
normally at end of input. -/
theorem eof_read_stops_iteration (p : BasePlayer)
    (hp : p.closed = false) (hf : p.fp.closed = false)
    (he : p.fp.content.length ≤ p.fp.pos) :
    ∃ q, p.get_next_packet = (Except.error PyExc.eofError, q) ∧
      q.closed = true ∧ q.fp.closed = true ∧
      p.anext = (Except.error PyExc.stopAsyncIteration, q) := by
  have hd : p.fp.content.drop p.fp.pos = [] := List.drop_eq_nil_of_le he
  unfold BasePlayer.anext BasePlayer.get_next_packet PyFile.read BasePlayer.close PyFile.fclose
  simp [hp, hf, hd]

/-- C10 witness: the concrete open player at end of input stops
iteration normally. -/
theorem eof_read_stops_iteration_witness :
    playerAtEof.closed = false ∧ playerAtEof.fp.closed = false ∧
    playerAtEof.fp.content.length ≤ playerAtEof.fp.pos ∧
    (∃ q, playerAtEof.get_next_packet = (Except.error PyExc.eofError, q) ∧
      q.closed = true ∧ q.fp.closed = true ∧
      playerAtEof.anext = (Except.error PyExc.stopAsyncIteration, q)) :=
  ⟨rfl, rfl, Nat.le_refl 0,
    eof_read_stops_iteration playerAtEof rfl rfl (Nat.le_refl 0)⟩
